import Mathlib

/-!
Shallow embedding of the Solana NFT-cloner client
(`src/client/amoebit_init.ts`) and proofs checking the natural-language
specification against it.

Modelling conventions:
* byte buffers are `List Nat` (each entry one byte);
* a `Pubkey` is its 32-byte content; `new PublicKey("base58")` is embedded
  by an executable base58 decoder;
* the sha-256 hash and the ed25519 on-curve test used by program-address
  derivation are external cryptographic primitives and appear as explicit
  function parameters (`hash`, `onCurve`);
* network effects are modelled by an explicit `Network` record plus an
  event log; library instruction factories from `@solana/web3.js` /
  `@solana/spl-token` build opaque tagged instruction values that record
  exactly the arguments the client passed, which is what the library
  serializes.
-/

/-- A byte buffer: a list of byte values. -/
abbrev Bytes := List Nat

/-- A 32-byte network address (`PublicKey` in the source). -/
structure Pubkey where
  bytes : Bytes
deriving DecidableEq, Repr

/-- `pubkey.toBuffer()` from the source: the raw 32-byte content. -/
def Pubkey.toBuffer (p : Pubkey) : Bytes := p.bytes

/-- Base58 alphabet used by `new PublicKey(string)`. -/
def base58Alphabet : List Char :=
  ("123456789ABCDEFGHJKLMNPQRSTUVWXYZabcdefghijkmnopqrstuvwxyz").toList

/-- Value of one base58 digit. -/
def base58DigitVal (c : Char) : Nat := List.indexOf c base58Alphabet

/-- Decode a base58 string to its numeric value. -/
def base58DecodeNat (s : String) : Nat :=
  s.toList.foldl (fun acc c => acc * 58 + base58DigitVal c) 0

/-- Big-endian byte representation, fixed width. -/
def natToBytesBE : Nat → Nat → Bytes
  | 0, _ => []
  | k + 1, n => natToBytesBE k (n / 256) ++ [n % 256]

/-- `new PublicKey(s)`: decode the base58 string to a 32-byte address. -/
def PublicKey (s : String) : Pubkey := ⟨natToBytesBE 32 (base58DecodeNat s)⟩

/-- `Buffer.from(s)`: the bytes of an ASCII string literal. -/
def bufferFrom (s : String) : Bytes := s.toList.map Char.toNat

/-- Concatenation of a list of byte buffers. -/
def concatBytes (l : List Bytes) : Bytes := l.foldr (fun a b => a ++ b) []

/-- Modelled from the spec: the fixed domain-separation suffix the
SeedDeriver appends to the hashed material (§4.1); its implementation
lives in `@solana/web3.js`, not under `src/`. -/
def domainSuffix : Bytes := bufferFrom ("ProgramDerivedAddress")

/-- Modelled from the spec: one bump-search step of the SeedDeriver
(§4.1), counting the fuel down; fuel `b + 1` tries bump byte `b`.  The
candidate address is the hash of all seeds, the bump byte, the owner
address and the domain-separation suffix; it is accepted when it does
not lie on the key-pair curve. -/
def deriveAux (hash : Bytes → Bytes) (onCurve : Bytes → Bool)
    (seeds : List Bytes) (owner : Pubkey) : Nat → Option (Pubkey × Nat)
  | 0 => none
  | b + 1 =>
    let candidate := hash (concatBytes seeds ++ [b] ++ owner.toBuffer ++ domainSuffix)
    if onCurve candidate then deriveAux hash onCurve seeds owner b
    else some (⟨candidate⟩, b)

/-- Modelled from the spec: `derive(seeds, ownerProgram)` of the
SeedDeriver (§4.1) — `PublicKey.findProgramAddress` in the source, whose
implementation lives in `@solana/web3.js`, not under `src/`.  It iterates
a single trailing bump byte from 255 down to 0 and accepts the first
candidate whose hash is off-curve; `none` models the `NoValidBumpFound`
error. -/
def derive (hash : Bytes → Bytes) (onCurve : Bytes → Bool)
    (seeds : List Bytes) (owner : Pubkey) : Option (Pubkey × Nat) :=
  deriveAux hash onCurve seeds owner 256

/-- One network call visible to the client, recorded in order. -/
inductive NetEvent
  | getRecentBlockhash
  | getBalance (addr : Pubkey)
  | requestAirdrop (addr : Pubkey) (amount : Nat)
  | confirmTransaction
deriving DecidableEq, Repr

/-- The parts of the network connection `establishPayer` observes:
the fee rate returned by `getRecentBlockhash`, the balances returned by
`getBalance`, and how many lamports the faucet actually credits for an
airdrop request of a given amount (the request may under-deliver). -/
structure Network where
  lamportsPerSignature : Nat
  balances : Pubkey → Nat
  airdropGrant : Nat → Nat

/-- Effect of `connection.requestAirdrop(addr, amount)` on the network:
the faucet credits `airdropGrant amount` lamports to `addr`. -/
def Network.requestAirdrop (net : Network) (addr : Pubkey) (amount : Nat) : Network :=
  { net with
    balances := fun a => if a = addr then net.balances a + net.airdropGrant amount
      else net.balances a }

/-- Errors of the spec taxonomy that the embedded client could surface. -/
inductive ClientError
  | InsufficientFunds
deriving DecidableEq, Repr

/-- Observable outcome of one `establishPayer` run: the network calls in
order, the payer in use afterwards, the lamport amount the final log line
reports, and the network state afterwards. -/
structure EstablishResult where
  events : List NetEvent
  payerAfter : Pubkey
  lamportsLogged : Nat
  netAfter : Network

/-- `establishPayer` from the source.  `payerOpt` is the module-level
`payer` variable before the call (`none` on the first call), `getPayer`
the keypair `getPayer()` would load.  Fees start at 0 and are only
computed when the payer is not yet set; if the balance is below the fee
requirement an airdrop for the shortfall is requested, the transaction
confirmed, and the balance re-read.  The source ends by logging the
balance; it contains no throw, so every run returns `Except.ok`. -/
def establishPayer (net : Network) (payerOpt : Option Pubkey) (getPayer : Pubkey) :
    Except ClientError EstablishResult :=
  let feesPayerEvents : Nat × Pubkey × List NetEvent :=
    match payerOpt with
    | none => (net.lamportsPerSignature * 100, getPayer, [NetEvent.getRecentBlockhash])
    | some p => (0, p, [])
  let fees := feesPayerEvents.1
  let payer := feesPayerEvents.2.1
  let ev := feesPayerEvents.2.2
  let lamports := net.balances payer
  if lamports < fees then
    let net2 := net.requestAirdrop payer (fees - lamports)
    let lamports2 := net2.balances payer
    Except.ok
      { events := ev ++ [NetEvent.getBalance payer,
          NetEvent.requestAirdrop payer (fees - lamports),
          NetEvent.confirmTransaction, NetEvent.getBalance payer]
        payerAfter := payer
        lamportsLogged := lamports2
        netAfter := net2 }
  else
    Except.ok
      { events := ev ++ [NetEvent.getBalance payer]
        payerAfter := payer
        lamportsLogged := lamports
        netAfter := net }

/-- One entry of an instruction's account list:
`{pubkey, isSigner, isWritable}`. -/
structure AccountMeta where
  pubkey : Pubkey
  isSigner : Bool
  isWritable : Bool
deriving DecidableEq, Repr

/-- An instruction value.  The four library factory calls the client uses
are opaque serializable values recording exactly the arguments passed
(`@solana/web3.js` / `@solana/spl-token` serialize those arguments); `raw`
is `new TransactionInstruction({keys, programId, data})`. -/
inductive Instruction
  | createAccount (fromPubkey newAccountPubkey : Pubkey) (lamports : Nat)
      (space : Nat) (programId : Pubkey)
  | initMint (tokenProgramId mintPubkey : Pubkey) (decimals : Nat)
      (mintAuthority : Pubkey) (freezeAuthority : Option Pubkey)
  | createAssociatedTokenAccount (associatedProgramId tokenProgramId
      mintPubkey associatedAccount owner payer : Pubkey)
  | mintTo (tokenProgramId mintPubkey dest authority : Pubkey)
      (multiSigners : List Pubkey) (amount : Nat)
  | raw (keys : List AccountMeta) (programId : Pubkey) (data : Bytes)
deriving DecidableEq, Repr

/-- `SystemProgram.createAccount({fromPubkey, newAccountPubkey, lamports,
space, programId})`. -/
def SystemProgram.createAccount (fromPubkey newAccountPubkey : Pubkey)
    (lamports space : Nat) (programId : Pubkey) : Instruction :=
  Instruction.createAccount fromPubkey newAccountPubkey lamports space programId

/-- `Token.createInitMintInstruction(programId, mint, decimals,
mintAuthority, freezeAuthority)`. -/
def Token.createInitMintInstruction (tokenProgramId mintPubkey : Pubkey)
    (decimals : Nat) (mintAuthority : Pubkey) (freezeAuthority : Option Pubkey) :
    Instruction :=
  Instruction.initMint tokenProgramId mintPubkey decimals mintAuthority freezeAuthority

/-- `Token.createAssociatedTokenAccountInstruction(associatedProgramId,
programId, mint, associatedAccount, owner, payer)`. -/
def Token.createAssociatedTokenAccountInstruction
    (associatedProgramId tokenProgramId mintPubkey associatedAccount
      owner payer : Pubkey) : Instruction :=
  Instruction.createAssociatedTokenAccount associatedProgramId tokenProgramId
    mintPubkey associatedAccount owner payer

/-- `Token.createMintToInstruction(programId, mint, dest, authority,
multiSigners, amount)`. -/
def Token.createMintToInstruction (tokenProgramId mintPubkey dest authority : Pubkey)
    (multiSigners : List Pubkey) (amount : Nat) : Instruction :=
  Instruction.mintTo tokenProgramId mintPubkey dest authority multiSigners amount

/-- The five instruction kinds of the spec, for stating ordering claims. -/
inductive InstrKind
  | createAccountK
  | initMintK
  | createAssociatedK
  | mintToK
  | customK
deriving DecidableEq, Repr

/-- Which of the five kinds an instruction value is. -/
def Instruction.kindOf : Instruction → InstrKind
  | .createAccount _ _ _ _ _ => .createAccountK
  | .initMint _ _ _ _ _ => .initMintK
  | .createAssociatedTokenAccount _ _ _ _ _ _ => .createAssociatedK
  | .mintTo _ _ _ _ _ _ => .mintToK
  | .raw _ _ _ => .customK

/-- A transaction: its ordered instruction list. -/
structure Transaction where
  instructions : List Instruction
deriving DecidableEq, Repr

/-- `transaction.add(i1, ..., ik)` appends the instructions in order. -/
def Transaction.add (t : Transaction) (is : List Instruction) : Transaction :=
  { instructions := t.instructions ++ is }

/-- Options passed to submission. -/
structure SendOptions where
  skipPreflight : Bool
deriving DecidableEq, Repr

/-- What `sendAndConfirmTransaction(connection, transaction, signers,
options)` transmits: the transaction, the signing keypairs, the options. -/
structure Submission where
  transaction : Transaction
  signers : List Pubkey
  options : SendOptions
deriving DecidableEq, Repr

/-- `sendAndConfirmTransaction` hands the transaction, signer set and
options to the network unchanged. -/
def sendAndConfirmTransaction (t : Transaction) (signers : List Pubkey)
    (options : SendOptions) : Submission :=
  { transaction := t, signers := signers, options := options }

/-- `TOKEN_PROGRAM_ID` from `@solana/spl-token`. -/
def TOKEN_PROGRAM_ID : Pubkey :=
  PublicKey ("TokenkegQfeZyiNwAJbNbGKPFXCWuBvf9Ss623VQ5DA")

/-- `meta_program` in `testContract`. -/
def meta_program : Pubkey :=
  PublicKey ("metaqbxxUerdq28cj1RbAWkYQm3ybzjb6a8bt518x1s")

/-- `associated_program` in `testContract`. -/
def associated_program : Pubkey :=
  PublicKey ("ATokenGPvbdGVxr1b2hvZbsiqW5xWH25efTNsLJA8knL")

/-- `rugged_mint` in `testContract`. -/
def rugged_mint : Pubkey :=
  PublicKey ("GQFdQvFMjkq5x1Ny4nsEqRgcwdedJWpq3Fsy5KqjGKSm")

/-- `sys_key` in `testContract` (the system program). -/
def sys_key : Pubkey := PublicKey ("11111111111111111111111111111111")

/-- `rent_key` in `testContract` (the rent sysvar). -/
def rent_key : Pubkey :=
  PublicKey ("SysvarRent111111111111111111111111111111111")

/-- `new_update_auth` in `testContract`. -/
def new_update_auth : Pubkey :=
  PublicKey ("VLawmZTgLAbdeqrU579ohsdey9H1h3Mi1UeUJpg2mQB")

/-- `MintLayout.span` from `@solana/spl-token`: byte size of a mint
account. -/
def MintLayout.span : Nat := 82

/-- `AccountLayout.span` from `@solana/spl-token`: byte size of a token
account. -/
def AccountLayout.span : Nat := 165

/-- Observable outcome of `testContract`: what was submitted, plus the
(seeds, owner) pair of every `findProgramAddress` call in call order. -/
structure TestRun where
  submission : Submission
  derivations : List (List Bytes × Pubkey)
deriving DecidableEq, Repr

/-- `testContract` from the source.  Parameters: the hash and on-curve
test that `findProgramAddress` uses; the payer public key (module state),
the program id (module state), the freshly generated `mint_kp` public
key; and the two rent-exemption amounts the connection returns for the
mint and token layouts.  Returns `none` when a derivation finds no valid
bump (a rejected promise in the source). -/
def testContract (hash : Bytes → Bytes) (onCurve : Bytes → Bool)
    (payerPk programIdPk mintPk : Pubkey) (mintRent tokenRent : Nat) :
    Option TestRun :=
  (derive hash onCurve
    [payerPk.toBuffer, TOKEN_PROGRAM_ID.toBuffer, mintPk.toBuffer]
    associated_program).bind fun tkb =>
  (derive hash onCurve
    [payerPk.toBuffer, TOKEN_PROGRAM_ID.toBuffer, rugged_mint.toBuffer]
    associated_program).bind fun rtb =>
  (derive hash onCurve
    [bufferFrom ("metadata"), meta_program.toBuffer, mintPk.toBuffer]
    meta_program).bind fun mkb =>
  (derive hash onCurve
    [bufferFrom ("metadata"), meta_program.toBuffer, rugged_mint.toBuffer]
    meta_program).bind fun rmb =>
  (derive hash onCurve
    [bufferFrom ("amoebit_minter"), programIdPk.toBuffer, bufferFrom ("amoebit_minter")]
    programIdPk).bind fun akb =>
  let token_key := tkb.1
  let rugged_token := rtb.1
  let meta_key := mkb.1
  let rugged_metadata := rmb.1
  let auth_key := akb.1
  let account_0 : AccountMeta := ⟨payerPk, true, true⟩
  let account_1 : AccountMeta := ⟨rugged_mint, false, true⟩
  let account_2 : AccountMeta := ⟨sys_key, false, false⟩
  let account_3 : AccountMeta := ⟨token_key, false, true⟩
  let account_4 : AccountMeta := ⟨mintPk, false, true⟩
  let account_5 : AccountMeta := ⟨meta_key, false, true⟩
  let account_6 : AccountMeta := ⟨meta_program, false, false⟩
  let account_7 : AccountMeta := ⟨rent_key, false, false⟩
  let account_8 : AccountMeta := ⟨auth_key, false, true⟩
  let account_9 : AccountMeta := ⟨TOKEN_PROGRAM_ID, false, false⟩
  let account_10 : AccountMeta := ⟨rugged_metadata, false, true⟩
  let account_11 : AccountMeta := ⟨rugged_token, false, true⟩
  let account_12 : AccountMeta := ⟨new_update_auth, false, true⟩
  let mintAccount := SystemProgram.createAccount payerPk mintPk mintRent
    MintLayout.span TOKEN_PROGRAM_ID
  let tokenAccount := Token.createAssociatedTokenAccountInstruction
    associated_program TOKEN_PROGRAM_ID mintPk token_key payerPk payerPk
  let create_token := Token.createInitMintInstruction TOKEN_PROGRAM_ID mintPk 0
    payerPk none
  let mint_into_token_account := Token.createMintToInstruction TOKEN_PROGRAM_ID
    mintPk token_key payerPk [] 1
  let instruction := Instruction.raw
    [account_0, account_1, account_2, account_3, account_4, account_5,
      account_6, account_7, account_8, account_9, account_10, account_11,
      account_12] programIdPk []
  let transaction := Transaction.add { instructions := [] }
    [mintAccount, create_token, tokenAccount, mint_into_token_account, instruction]
  some
    { submission := sendAndConfirmTransaction transaction [payerPk, mintPk]
        { skipPreflight := true }
      derivations :=
        [([payerPk.toBuffer, TOKEN_PROGRAM_ID.toBuffer, mintPk.toBuffer],
            associated_program),
          ([payerPk.toBuffer, TOKEN_PROGRAM_ID.toBuffer, rugged_mint.toBuffer],
            associated_program),
          ([bufferFrom ("metadata"), meta_program.toBuffer, mintPk.toBuffer],
            meta_program),
          ([bufferFrom ("metadata"), meta_program.toBuffer, rugged_mint.toBuffer],
            meta_program),
          ([bufferFrom ("amoebit_minter"), programIdPk.toBuffer,
              bufferFrom ("amoebit_minter")], programIdPk)] }

/-- Concrete stand-in for the sha-256 hash: a constant 32-byte result. -/
def hashW : Bytes → Bytes := fun _ => List.replicate 32 7

/-- Concrete stand-in for the on-curve test: every point off-curve, so
the bump search accepts the first candidate (bump 255). -/
def onCurveW : Bytes → Bool := fun _ => false

/-- Concrete payer public key. -/
def payerW : Pubkey := ⟨List.replicate 32 1⟩

/-- Concrete program id. -/
def programIdW : Pubkey := ⟨List.replicate 32 2⟩

/-- Concrete freshly generated mint public key. -/
def mintW : Pubkey := ⟨List.replicate 32 3⟩

/-- The address every derivation returns under `hashW`. -/
def derivedW : Pubkey := ⟨List.replicate 32 7⟩

/-- Concrete network: fee rate 50 lamports per signature (so the fee
requirement is 50 × 100 = 5000), all balances zero, and a faucet that
credits nothing, so the balance stays 0 after the airdrop. -/
def net0 : Network :=
  { lamportsPerSignature := 50, balances := fun _ => 0, airdropGrant := fun _ => 0 }

/-- Concrete payer key loaded by `getPayer()`. -/
def p0 : Pubkey := ⟨List.replicate 32 9⟩

/-- The 13-entry custom-invoke account list at concrete addresses with
the writable flag of index 1 deliberately flipped to `false`. -/
def flippedKeys : List AccountMeta :=
  [⟨payerW, true, true⟩, ⟨rugged_mint, false, false⟩, ⟨sys_key, false, false⟩,
    ⟨derivedW, false, true⟩, ⟨mintW, false, true⟩, ⟨derivedW, false, true⟩,
    ⟨meta_program, false, false⟩, ⟨rent_key, false, false⟩, ⟨derivedW, false, true⟩,
    ⟨TOKEN_PROGRAM_ID, false, false⟩, ⟨derivedW, false, true⟩, ⟨derivedW, false, true⟩,
    ⟨new_update_auth, false, true⟩]

/-- Helper: the value `testContract` computes once the five address
derivations are known to succeed with given results. -/
theorem testContract_eq (hash : Bytes → Bytes) (onCurve : Bytes → Bool)
    (payerPk programIdPk mintPk : Pubkey) (mintRent tokenRent : Nat)
    (tk rt mk rm ak : Pubkey) (b1 b2 b3 b4 b5 : Nat)
    (h1 : derive hash onCurve
      [payerPk.toBuffer, TOKEN_PROGRAM_ID.toBuffer, mintPk.toBuffer]
      associated_program = some (tk, b1))
    (h2 : derive hash onCurve
      [payerPk.toBuffer, TOKEN_PROGRAM_ID.toBuffer, rugged_mint.toBuffer]
      associated_program = some (rt, b2))
    (h3 : derive hash onCurve
      [bufferFrom ("metadata"), meta_program.toBuffer, mintPk.toBuffer]
      meta_program = some (mk, b3))
    (h4 : derive hash onCurve
      [bufferFrom ("metadata"), meta_program.toBuffer, rugged_mint.toBuffer]
      meta_program = some (rm, b4))
    (h5 : derive hash onCurve
      [bufferFrom ("amoebit_minter"), programIdPk.toBuffer, bufferFrom ("amoebit_minter")]
      programIdPk = some (ak, b5)) :
    testContract hash onCurve payerPk programIdPk mintPk mintRent tokenRent =
      some
        { submission :=
            { transaction :=
                { instructions :=
                    [Instruction.createAccount payerPk mintPk mintRent
                        MintLayout.span TOKEN_PROGRAM_ID,
                      Instruction.initMint TOKEN_PROGRAM_ID mintPk 0 payerPk none,
                      Instruction.createAssociatedTokenAccount associated_program
                        TOKEN_PROGRAM_ID mintPk tk payerPk payerPk,
                      Instruction.mintTo TOKEN_PROGRAM_ID mintPk tk payerPk [] 1,
                      Instruction.raw
                        [⟨payerPk, true, true⟩, ⟨rugged_mint, false, true⟩,
                          ⟨sys_key, false, false⟩, ⟨tk, false, true⟩,
                          ⟨mintPk, false, true⟩, ⟨mk, false, true⟩,
                          ⟨meta_program, false, false⟩, ⟨rent_key, false, false⟩,
                          ⟨ak, false, true⟩, ⟨TOKEN_PROGRAM_ID, false, false⟩,
                          ⟨rm, false, true⟩, ⟨rt, false, true⟩,
                          ⟨new_update_auth, false, true⟩] programIdPk []] }
              signers := [payerPk, mintPk]
              options := { skipPreflight := true } }
          derivations :=
            [([payerPk.toBuffer, TOKEN_PROGRAM_ID.toBuffer, mintPk.toBuffer],
                associated_program),
              ([payerPk.toBuffer, TOKEN_PROGRAM_ID.toBuffer, rugged_mint.toBuffer],
                associated_program),
              ([bufferFrom ("metadata"), meta_program.toBuffer, mintPk.toBuffer],
                meta_program),
              ([bufferFrom ("metadata"), meta_program.toBuffer, rugged_mint.toBuffer],
                meta_program),
              ([bufferFrom ("amoebit_minter"), programIdPk.toBuffer,
                  bufferFrom ("amoebit_minter")], programIdPk)] } := by
  simp only [testContract, h1, h2, h3, h4, h5, Option.some_bind]
  rfl

/-- C1: the CustomInvoke instruction (position 5 of the transaction) has
exactly the 13-entry account list of the fixed template — index 0 the
payer as signer and writable; indices 1, 3, 4, 5, 8, 10, 11, 12
non-signer writable; indices 2, 6, 7, 9 non-signer read-only — and empty
payload bytes, for every resolved set of addresses. -/
theorem customInvoke_matches_template (hash : Bytes → Bytes) (onCurve : Bytes → Bool)
    (payerPk programIdPk mintPk : Pubkey) (mintRent tokenRent : Nat)
    (tk rt mk rm ak : Pubkey) (b1 b2 b3 b4 b5 : Nat)
    (h1 : derive hash onCurve
      [payerPk.toBuffer, TOKEN_PROGRAM_ID.toBuffer, mintPk.toBuffer]
      associated_program = some (tk, b1))
    (h2 : derive hash onCurve
      [payerPk.toBuffer, TOKEN_PROGRAM_ID.toBuffer, rugged_mint.toBuffer]
      associated_program = some (rt, b2))
    (h3 : derive hash onCurve
      [bufferFrom ("metadata"), meta_program.toBuffer, mintPk.toBuffer]
      meta_program = some (mk, b3))
    (h4 : derive hash onCurve
      [bufferFrom ("metadata"), meta_program.toBuffer, rugged_mint.toBuffer]
      meta_program = some (rm, b4))
    (h5 : derive hash onCurve
      [bufferFrom ("amoebit_minter"), programIdPk.toBuffer, bufferFrom ("amoebit_minter")]
      programIdPk = some (ak, b5)) :
    (testContract hash onCurve payerPk programIdPk mintPk mintRent tokenRent).map
        (fun run => run.submission.transaction.instructions.get? 4) =
      some (some (Instruction.raw
        [⟨payerPk, true, true⟩, ⟨rugged_mint, false, true⟩,
          ⟨sys_key, false, false⟩, ⟨tk, false, true⟩,
          ⟨mintPk, false, true⟩, ⟨mk, false, true⟩,
          ⟨meta_program, false, false⟩, ⟨rent_key, false, false⟩,
          ⟨ak, false, true⟩, ⟨TOKEN_PROGRAM_ID, false, false⟩,
          ⟨rm, false, true⟩, ⟨rt, false, true⟩,
          ⟨new_update_auth, false, true⟩] programIdPk [])) := by
  rw [testContract_eq hash onCurve payerPk programIdPk mintPk mintRent tokenRent
    tk rt mk rm ak b1 b2 b3 b4 b5 h1 h2 h3 h4 h5]
  rfl

/-- Witness for C1 at concrete inputs. -/
theorem customInvoke_matches_template_witness :
    (testContract hashW onCurveW payerW programIdW mintW 10 20).map
        (fun run => run.submission.transaction.instructions.get? 4) =
      some (some (Instruction.raw
        [⟨payerW, true, true⟩, ⟨rugged_mint, false, true⟩,
          ⟨sys_key, false, false⟩, ⟨derivedW, false, true⟩,
          ⟨mintW, false, true⟩, ⟨derivedW, false, true⟩,
          ⟨meta_program, false, false⟩, ⟨rent_key, false, false⟩,
          ⟨derivedW, false, true⟩, ⟨TOKEN_PROGRAM_ID, false, false⟩,
          ⟨derivedW, false, true⟩, ⟨derivedW, false, true⟩,
          ⟨new_update_auth, false, true⟩] programIdW [])) :=
  customInvoke_matches_template hashW onCurveW payerW programIdW mintW 10 20
    derivedW derivedW derivedW derivedW derivedW 255 255 255 255 255
    rfl rfl rfl rfl rfl

/-- C2: the assembled transaction's instruction list is exactly
[CreateAccount, InitializeMint, CreateAssociatedAccount, MintTo,
CustomInvoke] in that order, and the assembler (`Transaction.add`)
appends without reordering. -/
theorem transaction_instruction_order (hash : Bytes → Bytes) (onCurve : Bytes → Bool)
    (payerPk programIdPk mintPk : Pubkey) (mintRent tokenRent : Nat)
    (tk rt mk rm ak : Pubkey) (b1 b2 b3 b4 b5 : Nat)
    (h1 : derive hash onCurve
      [payerPk.toBuffer, TOKEN_PROGRAM_ID.toBuffer, mintPk.toBuffer]
      associated_program = some (tk, b1))
    (h2 : derive hash onCurve
      [payerPk.toBuffer, TOKEN_PROGRAM_ID.toBuffer, rugged_mint.toBuffer]
      associated_program = some (rt, b2))
    (h3 : derive hash onCurve
      [bufferFrom ("metadata"), meta_program.toBuffer, mintPk.toBuffer]
      meta_program = some (mk, b3))
    (h4 : derive hash onCurve
      [bufferFrom ("metadata"), meta_program.toBuffer, rugged_mint.toBuffer]
      meta_program = some (rm, b4))
    (h5 : derive hash onCurve
      [bufferFrom ("amoebit_minter"), programIdPk.toBuffer, bufferFrom ("amoebit_minter")]
      programIdPk = some (ak, b5)) :
    (testContract hash onCurve payerPk programIdPk mintPk mintRent tokenRent).map
        (fun run => run.submission.transaction.instructions.map Instruction.kindOf) =
      some [InstrKind.createAccountK, InstrKind.initMintK,
        InstrKind.createAssociatedK, InstrKind.mintToK, InstrKind.customK] ∧
    ∀ (t : Transaction) (is : List Instruction),
      (Transaction.add t is).instructions = t.instructions ++ is := by
  refine ⟨?_, fun t is => rfl⟩
  rw [testContract_eq hash onCurve payerPk programIdPk mintPk mintRent tokenRent
    tk rt mk rm ak b1 b2 b3 b4 b5 h1 h2 h3 h4 h5]
  rfl

/-- Witness for C2 at concrete inputs. -/
theorem transaction_instruction_order_witness :
    (testContract hashW onCurveW payerW programIdW mintW 10 20).map
        (fun run => run.submission.transaction.instructions.map Instruction.kindOf) =
      some [InstrKind.createAccountK, InstrKind.initMintK,
        InstrKind.createAssociatedK, InstrKind.mintToK, InstrKind.customK] ∧
    (Transaction.add { instructions := [] }
        [Instruction.raw [] programIdW []]).instructions =
      [] ++ [Instruction.raw [] programIdW []] :=
  ⟨(transaction_instruction_order hashW onCurveW payerW programIdW mintW 10 20
      derivedW derivedW derivedW derivedW derivedW 255 255 255 255 255
      rfl rfl rfl rfl rfl).1,
    (transaction_instruction_order hashW onCurveW payerW programIdW mintW 10 20
      derivedW derivedW derivedW derivedW derivedW 255 255 255 255 255
      rfl rfl rfl rfl rfl).2 { instructions := [] } [Instruction.raw [] programIdW []]⟩

/-- C3 counterexample: with balance 0, fee requirement 5000 and a faucet
that credits nothing, `establishPayer` requests an airdrop of exactly
5000 and re-checks the balance, which is still 0 < 5000 — yet it returns
`Except.ok`, so no `InsufficientFunds` error is raised, contrary to the
claim. -/
theorem establishPayer_no_error_counterexample :
    (establishPayer net0 none p0).toOption.isSome = true ∧
    (establishPayer net0 none p0).toOption.map
        (fun r => (r.events, r.netAfter.balances p0)) =
      some ([NetEvent.getRecentBlockhash, NetEvent.getBalance p0,
        NetEvent.requestAirdrop p0 5000, NetEvent.confirmTransaction,
        NetEvent.getBalance p0], 0) := by
  constructor
  · rfl
  · simp [establishPayer, net0, Network.requestAirdrop, Except.toOption]

/-- C3 (amended): when the payer is not yet established, its balance is 0
and the fee requirement is 5000 units, `establishPayer` issues an airdrop
request for exactly 5000 units (the shortfall) and re-checks the balance
afterwards; it then returns normally — the source raises no
`InsufficientFunds` error however low the post-airdrop balance is. -/
theorem establishPayer_airdrops_shortfall (net : Network) (gp : Pubkey)
    (hbal : net.balances gp = 0) (hfee : net.lamportsPerSignature * 100 = 5000) :
    (establishPayer net none gp).toOption.map (fun r => r.events) =
      some [NetEvent.getRecentBlockhash, NetEvent.getBalance gp,
        NetEvent.requestAirdrop gp 5000, NetEvent.confirmTransaction,
        NetEvent.getBalance gp] := by
  simp [establishPayer, hbal, hfee, Except.toOption]

/-- Witness for C3's amended theorem at concrete inputs. -/
theorem establishPayer_airdrops_shortfall_witness :
    net0.balances p0 = 0 ∧ net0.lamportsPerSignature * 100 = 5000 ∧
    (establishPayer net0 none p0).toOption.map (fun r => r.events) =
      some [NetEvent.getRecentBlockhash, NetEvent.getBalance p0,
        NetEvent.requestAirdrop p0 5000, NetEvent.confirmTransaction,
        NetEvent.getBalance p0] :=
  ⟨rfl, rfl, establishPayer_airdrops_shortfall net0 p0 rfl rfl⟩

/-- C4 counterexample: a CustomInvoke instruction whose 13-entry account
list deviates from the template by one flipped writable flag (index 1)
flows through instruction construction, transaction assembly and
submission unchanged — nothing rejects it before submission. -/
theorem flipped_template_submitted_counterexample :
    (sendAndConfirmTransaction
        (Transaction.add { instructions := [] }
          [Instruction.raw flippedKeys programIdW []])
        [payerW] { skipPreflight := true }).transaction.instructions =
      [Instruction.raw flippedKeys programIdW []] := rfl

/-- C4 (amended): no conformance check exists — the client builds the
CustomInvoke instruction from whatever account list it is given and the
assembler and submitter pass it through unchanged; the fixed template is
reproduced only by the literal construction in `testContract`, not
enforced by validation. -/
theorem raw_instruction_not_validated (keys : List AccountMeta) (pid : Pubkey)
    (d : Bytes) (t : Transaction) (signers : List Pubkey) (opts : SendOptions) :
    (Instruction.raw keys pid d).kindOf = InstrKind.customK ∧
    (sendAndConfirmTransaction (t.add [Instruction.raw keys pid d])
        signers opts).transaction.instructions =
      t.instructions ++ [Instruction.raw keys pid d] :=
  ⟨rfl, rfl⟩

/-- C5: the three derived addresses use exactly the seed sets and owner
programs the spec lists — the metadata record from (literal tag
"metadata", metadata-program address, mint address) under the metadata
program; the authority from (literal tag "amoebit_minter",
minter-program address, the same tag again) under the minter program;
the associated-token address from (payer address, token-program address,
mint address) under the associated-account program.  The run's
derivation log also shows the two extra derivations for the fixed
"rugged" mint, which use the same seed shapes. -/
theorem derivation_seed_sets (hash : Bytes → Bytes) (onCurve : Bytes → Bool)
    (payerPk programIdPk mintPk : Pubkey) (mintRent tokenRent : Nat)
    (tk rt mk rm ak : Pubkey) (b1 b2 b3 b4 b5 : Nat)
    (h1 : derive hash onCurve
      [payerPk.toBuffer, TOKEN_PROGRAM_ID.toBuffer, mintPk.toBuffer]
      associated_program = some (tk, b1))
    (h2 : derive hash onCurve
      [payerPk.toBuffer, TOKEN_PROGRAM_ID.toBuffer, rugged_mint.toBuffer]
      associated_program = some (rt, b2))
    (h3 : derive hash onCurve
      [bufferFrom ("metadata"), meta_program.toBuffer, mintPk.toBuffer]
      meta_program = some (mk, b3))
    (h4 : derive hash onCurve
      [bufferFrom ("metadata"), meta_program.toBuffer, rugged_mint.toBuffer]
      meta_program = some (rm, b4))
    (h5 : derive hash onCurve
      [bufferFrom ("amoebit_minter"), programIdPk.toBuffer, bufferFrom ("amoebit_minter")]
      programIdPk = some (ak, b5)) :
    (testContract hash onCurve payerPk programIdPk mintPk mintRent tokenRent).map
        (fun run => run.derivations) =
      some
        [([payerPk.toBuffer, TOKEN_PROGRAM_ID.toBuffer, mintPk.toBuffer],
            associated_program),
          ([payerPk.toBuffer, TOKEN_PROGRAM_ID.toBuffer, rugged_mint.toBuffer],
            associated_program),
          ([bufferFrom ("metadata"), meta_program.toBuffer, mintPk.toBuffer],
            meta_program),
          ([bufferFrom ("metadata"), meta_program.toBuffer, rugged_mint.toBuffer],
            meta_program),
          ([bufferFrom ("amoebit_minter"), programIdPk.toBuffer,
              bufferFrom ("amoebit_minter")], programIdPk)] := by
  rw [testContract_eq hash onCurve payerPk programIdPk mintPk mintRent tokenRent
    tk rt mk rm ak b1 b2 b3 b4 b5 h1 h2 h3 h4 h5]
  rfl

/-- Witness for C5 at concrete inputs. -/
theorem derivation_seed_sets_witness :
    (testContract hashW onCurveW payerW programIdW mintW 10 20).map
        (fun run => run.derivations) =
      some
        [([payerW.toBuffer, TOKEN_PROGRAM_ID.toBuffer, mintW.toBuffer],
            associated_program),
          ([payerW.toBuffer, TOKEN_PROGRAM_ID.toBuffer, rugged_mint.toBuffer],
            associated_program),
          ([bufferFrom ("metadata"), meta_program.toBuffer, mintW.toBuffer],
            meta_program),
          ([bufferFrom ("metadata"), meta_program.toBuffer, rugged_mint.toBuffer],
            meta_program),
          ([bufferFrom ("amoebit_minter"), programIdW.toBuffer,
              bufferFrom ("amoebit_minter")], programIdW)] :=
  derivation_seed_sets hashW onCurveW payerW programIdW mintW 10 20
    derivedW derivedW derivedW derivedW derivedW 255 255 255 255 255
    rfl rfl rfl rfl rfl

/-- C6: the MintTo instruction (position 4 of the transaction) mints
exactly 1 unit of the newly created mint into the payer's associated
token account (the address derived from the payer / token-program / mint
seeds), with the payer as the authorizing signer and no extra
multisig signers. -/
theorem mintTo_one_unit (hash : Bytes → Bytes) (onCurve : Bytes → Bool)
    (payerPk programIdPk mintPk : Pubkey) (mintRent tokenRent : Nat)
    (tk rt mk rm ak : Pubkey) (b1 b2 b3 b4 b5 : Nat)
    (h1 : derive hash onCurve
      [payerPk.toBuffer, TOKEN_PROGRAM_ID.toBuffer, mintPk.toBuffer]
      associated_program = some (tk, b1))
    (h2 : derive hash onCurve
      [payerPk.toBuffer, TOKEN_PROGRAM_ID.toBuffer, rugged_mint.toBuffer]
      associated_program = some (rt, b2))
    (h3 : derive hash onCurve
      [bufferFrom ("metadata"), meta_program.toBuffer, mintPk.toBuffer]
      meta_program = some (mk, b3))
    (h4 : derive hash onCurve
      [bufferFrom ("metadata"), meta_program.toBuffer, rugged_mint.toBuffer]
      meta_program = some (rm, b4))
    (h5 : derive hash onCurve
      [bufferFrom ("amoebit_minter"), programIdPk.toBuffer, bufferFrom ("amoebit_minter")]
      programIdPk = some (ak, b5)) :
    (testContract hash onCurve payerPk programIdPk mintPk mintRent tokenRent).map
        (fun run => run.submission.transaction.instructions.get? 3) =
      some (some (Instruction.mintTo TOKEN_PROGRAM_ID mintPk tk payerPk [] 1)) := by
  rw [testContract_eq hash onCurve payerPk programIdPk mintPk mintRent tokenRent
    tk rt mk rm ak b1 b2 b3 b4 b5 h1 h2 h3 h4 h5]
  rfl

/-- Witness for C6 at concrete inputs. -/
theorem mintTo_one_unit_witness :
    (testContract hashW onCurveW payerW programIdW mintW 10 20).map
        (fun run => run.submission.transaction.instructions.get? 3) =
      some (some (Instruction.mintTo TOKEN_PROGRAM_ID mintW derivedW payerW [] 1)) :=
  mintTo_one_unit hashW onCurveW payerW programIdW mintW 10 20
    derivedW derivedW derivedW derivedW derivedW 255 255 255 255 255
    rfl rfl rfl rfl rfl

/-- C7: the InitializeMint instruction (position 2 of the transaction)
configures the new account as a token mint with zero decimal places, the
payer as mint authority and no freeze authority. -/
theorem initMint_zero_decimals (hash : Bytes → Bytes) (onCurve : Bytes → Bool)
    (payerPk programIdPk mintPk : Pubkey) (mintRent tokenRent : Nat)
    (tk rt mk rm ak : Pubkey) (b1 b2 b3 b4 b5 : Nat)
    (h1 : derive hash onCurve
      [payerPk.toBuffer, TOKEN_PROGRAM_ID.toBuffer, mintPk.toBuffer]
      associated_program = some (tk, b1))
    (h2 : derive hash onCurve
      [payerPk.toBuffer, TOKEN_PROGRAM_ID.toBuffer, rugged_mint.toBuffer]
      associated_program = some (rt, b2))
    (h3 : derive hash onCurve
      [bufferFrom ("metadata"), meta_program.toBuffer, mintPk.toBuffer]
      meta_program = some (mk, b3))
    (h4 : derive hash onCurve
      [bufferFrom ("metadata"), meta_program.toBuffer, rugged_mint.toBuffer]
      meta_program = some (rm, b4))
    (h5 : derive hash onCurve
      [bufferFrom ("amoebit_minter"), programIdPk.toBuffer, bufferFrom ("amoebit_minter")]
      programIdPk = some (ak, b5)) :
    (testContract hash onCurve payerPk programIdPk mintPk mintRent tokenRent).map
        (fun run => run.submission.transaction.instructions.get? 1) =
      some (some (Instruction.initMint TOKEN_PROGRAM_ID mintPk 0 payerPk none)) := by
  rw [testContract_eq hash onCurve payerPk programIdPk mintPk mintRent tokenRent
    tk rt mk rm ak b1 b2 b3 b4 b5 h1 h2 h3 h4 h5]
  rfl

/-- Witness for C7 at concrete inputs. -/
theorem initMint_zero_decimals_witness :
    (testContract hashW onCurveW payerW programIdW mintW 10 20).map
        (fun run => run.submission.transaction.instructions.get? 1) =
      some (some (Instruction.initMint TOKEN_PROGRAM_ID mintW 0 payerW none)) :=
  initMint_zero_decimals hashW onCurveW payerW programIdW mintW 10 20
    derivedW derivedW derivedW derivedW derivedW 255 255 255 255 255
    rfl rfl rfl rfl rfl

/-- C8: submission signs with exactly the payer keypair and the new
mint's keypair, in that order, and passes `skipPreflight := true` so the
local simulation is bypassed. -/
theorem submission_signers_and_options (hash : Bytes → Bytes) (onCurve : Bytes → Bool)
    (payerPk programIdPk mintPk : Pubkey) (mintRent tokenRent : Nat)
    (tk rt mk rm ak : Pubkey) (b1 b2 b3 b4 b5 : Nat)
    (h1 : derive hash onCurve
      [payerPk.toBuffer, TOKEN_PROGRAM_ID.toBuffer, mintPk.toBuffer]
      associated_program = some (tk, b1))
    (h2 : derive hash onCurve
      [payerPk.toBuffer, TOKEN_PROGRAM_ID.toBuffer, rugged_mint.toBuffer]
      associated_program = some (rt, b2))
    (h3 : derive hash onCurve
      [bufferFrom ("metadata"), meta_program.toBuffer, mintPk.toBuffer]
      meta_program = some (mk, b3))
    (h4 : derive hash onCurve
      [bufferFrom ("metadata"), meta_program.toBuffer, rugged_mint.toBuffer]
      meta_program = some (rm, b4))
    (h5 : derive hash onCurve
      [bufferFrom ("amoebit_minter"), programIdPk.toBuffer, bufferFrom ("amoebit_minter")]
      programIdPk = some (ak, b5)) :
    (testContract hash onCurve payerPk programIdPk mintPk mintRent tokenRent).map
        (fun run => (run.submission.signers, run.submission.options)) =
      some ([payerPk, mintPk], { skipPreflight := true }) := by
  rw [testContract_eq hash onCurve payerPk programIdPk mintPk mintRent tokenRent
    tk rt mk rm ak b1 b2 b3 b4 b5 h1 h2 h3 h4 h5]
  rfl

/-- Witness for C8 at concrete inputs. -/
theorem submission_signers_and_options_witness :
    (testContract hashW onCurveW payerW programIdW mintW 10 20).map
        (fun run => (run.submission.signers, run.submission.options)) =
      some ([payerW, mintW], { skipPreflight := true }) :=
  submission_signers_and_options hashW onCurveW payerW programIdW mintW 10 20
    derivedW derivedW derivedW derivedW derivedW 255 255 255 255 255
    rfl rfl rfl rfl rfl

/-- C9: address derivation is a deterministic pure function of the seed
sequence and the owner address — two calls on identical inputs return the
identical (address, bump) pair. -/
theorem derive_deterministic (hash : Bytes → Bytes) (onCurve : Bytes → Bool)
    (S1 S2 : List Bytes) (O1 O2 : Pubkey) (hS : S1 = S2) (hO : O1 = O2) :
    derive hash onCurve S1 O1 = derive hash onCurve S2 O2 := by
  rw [hS, hO]

/-- Witness for C9: the spec's end-to-end scenario — repeated derivation
of the associated-token address from (payer, token program, mint) under
the associated-account program returns the same value. -/
theorem derive_deterministic_witness :
    derive hashW onCurveW
        [payerW.toBuffer, TOKEN_PROGRAM_ID.toBuffer, mintW.toBuffer]
        associated_program =
      derive hashW onCurveW
        [payerW.toBuffer, TOKEN_PROGRAM_ID.toBuffer, mintW.toBuffer]
        associated_program :=
  derive_deterministic hashW onCurveW
    [payerW.toBuffer, TOKEN_PROGRAM_ID.toBuffer, mintW.toBuffer]
    [payerW.toBuffer, TOKEN_PROGRAM_ID.toBuffer, mintW.toBuffer]
    associated_program associated_program rfl rfl

/-- C10: when the payer is already established, `establishPayer` leaves
the fee requirement at 0, so it never requests an airdrop whatever the
current balance is: it performs exactly one balance read, loads no payer,
and leaves the network (hence the payer's balance) unchanged. -/
theorem establishPayer_repeat_no_airdrop (net : Network) (p gp : Pubkey) :
    establishPayer net (some p) gp =
      Except.ok
        { events := [NetEvent.getBalance p]
          payerAfter := p
          lamportsLogged := net.balances p
          netAfter := net } := by
  simp [establishPayer]
